import Mathlib

/-!
Shallow embedding of the transaction submission pipeline of the
cw-orchestrator repository (crate cw-orch-daemon, principally
src/cw-orch-daemon/src/sender.rs and src/cw-orch-daemon/src/core.rs).

Modelling conventions:
* Rust f64 arithmetic is modelled over the exact rationals: the float
  literals 1.3, 1.4 and 0.00001 are read as the rationals 13/10, 14/10 and
  1/100000, and the float-to-integer casts (as u64, as u128), which
  truncate toward zero, are modelled as Nat.floor (their saturation bound
  is far outside the ranges considered and is not modelled).
* Rust Result with error type DaemonError is modelled as Except
  DaemonError; a Rust panic (out-of-bounds indexing) and a diverging
  recursion are modelled as the value none of an enclosing Option.
* Network interactions are modelled by passing the node responses as
  explicit arguments (the NodeOracle record below); key derivation,
  bech32 parsing and protobuf serialization are abstracted: addresses are
  Strings and the signed serialized form of a transaction body is
  supplied by an explicit encode argument.
* Environment variables (CwOrchEnvVars, crate cw-orch-core, not part of
  the sources) are modelled as an explicit EnvVars record passed as an
  argument; loading is assumed to succeed.
-/

/-- One entry of the fee-token list of the chain configuration
(chain_data.fees.fee_tokens in sender.rs). Gas prices are f64 in the
source, modelled as rationals. Fields not read by the pipeline
(low_gas_price, high_gas_price) are omitted. -/
structure FeeToken where
  denom : String
  fixed_min_gas_price : ℚ
  average_gas_price : ℚ

/-- Fee configuration of the chain (chain_data.fees). -/
structure Fees where
  fee_tokens : List FeeToken

/-- Chain metadata held by DaemonState (daemon_state.chain_data). Only the
fields the modelled pipeline reads are kept; the address prefix, slip44
and network type fields are omitted. -/
structure ChainData where
  chain_id : String
  fees : Fees

/-- SenderOptions from sender.rs lines 59 to 63. -/
structure SenderOptions where
  authz_granter : Option String

/-- The Sender of sender.rs (lines 52 to 57). The private key, the
secp256k1 context, and the address derivation they induce are abstracted:
pub_addr stands for the derived address string that pub_addr_str returns. -/
structure Sender where
  pub_addr : String
  chain_data : ChainData
  options : SenderOptions

/-- A coin amount (cosmwasm_std Coin); the u128 amount is modelled as ℕ. -/
structure Coin where
  amount : ℕ
  denom : String

/-- The DaemonError variants reached by the modelled code paths. -/
inductive DaemonError where
  | notEnoughBalance (expected : Coin) (current : Coin)
  | stdErr (msg : String)

/-- Environment toggles read through CwOrchEnvVars (crate cw-orch-core, a
dependency outside the sources); the field set is the one sender.rs
reads: gas_buffer, min_gas, disable_wallet_balance_assertion and
disable_manual_interaction. -/
structure EnvVars where
  gas_buffer : Option ℚ
  min_gas : Option ℕ
  disable_wallet_balance_assertion : Bool
  disable_manual_interaction : Bool

/-- const GAS_BUFFER: f64 = 1.3 (sender.rs line 42). -/
def GAS_BUFFER : ℚ := 13/10

/-- const BUFFER_THRESHOLD: u64 = 200_000 (sender.rs line 43). -/
def BUFFER_THRESHOLD : ℕ := 200000

/-- const SMALL_GAS_BUFFER: f64 = 1.4 (sender.rs line 44). -/
def SMALL_GAS_BUFFER : ℚ := 14/10

/-- message_sender (sender.rs lines 154 to 160): the authz granter if one
is configured, the derived wallet address otherwise. Bech32 validation of
the granter string (the parse call) is abstracted. -/
def message_sender (s : Sender) : String :=
  match s.options.authz_granter with
  | some granter => granter
  | none => s.pub_addr

/-- get_fee_token (sender.rs lines 176 to 180): reads fee_tokens[0].denom.
The indexing panics on an empty list, modelled by none. -/
def get_fee_token (s : Sender) : Option String :=
  (s.chain_data.fees.fee_tokens.head?).map FeeToken.denom

/-- The buffered (expected) gas value of get_fee_from_gas (sender.rs lines
185 to 195), before the final u64 cast: scale by the environment gas
buffer when one is set, else by 1.4 below the 200000 threshold and by 1.3
at or above it; then floor the result at the environment min_gas when one
is set. -/
def gas_expected_q (env : EnvVars) (gas : ℕ) : ℚ :=
  let base : ℚ :=
    match env.gas_buffer with
    | some gb => (gas : ℚ) * gb
    | none =>
      if gas < BUFFER_THRESHOLD then (gas : ℚ) * SMALL_GAS_BUFFER
      else (gas : ℚ) * GAS_BUFFER
  match env.min_gas with
  | some mg => max (mg : ℚ) base
  | none => base

/-- The fee amount of get_fee_from_gas (sender.rs lines 196 to 200),
before the final u128 cast: buffered gas times the larger of the two gas
prices of the given fee token, plus the 0.00001 epsilon. -/
def fee_amount_q (ft : FeeToken) (gas_expected : ℚ) : ℚ :=
  gas_expected * (max ft.fixed_min_gas_price ft.average_gas_price + 1/100000)

/-- get_fee_from_gas (sender.rs lines 184 to 203). Returns the buffered
gas and the fee amount, both truncated by the Rust casts. The source
indexes fee_tokens[0] for the two gas prices; on an empty fee-token list
that indexing panics, modelled by none. The DaemonError return type of
the source can only be reached through CwOrchEnvVars loading, which the
model assumes successful, so no error value remains. -/
def get_fee_from_gas (s : Sender) (env : EnvVars) (gas : ℕ) : Option (ℕ × ℕ) :=
  match s.chain_data.fees.fee_tokens.head? with
  | none => none
  | some ft =>
    some (⌊gas_expected_q env gas⌋₊, ⌊fee_amount_q ft (gas_expected_q env gas)⌋₊)

/-- A protobuf Any message envelope. The first constructor is an opaque
type-tagged payload as produced by Msg::into_any; the second represents
an Any whose value field holds the protobuf encoding of a MsgExec
authorization envelope (the encode_to_vec call of sender.rs line 294 is
abstracted structurally). -/
inductive AnyMsg : Type where
  | rawMsg (type_url : String) (value : List ℕ) : AnyMsg
  | exec (type_url : String) (grantee : String) (msgs : List AnyMsg) : AnyMsg

/-- An unsigned transaction body (cosmrs tx Body as assembled by
TxBuilder::build_body). -/
structure TxBody where
  messages : List AnyMsg
  memo : Option String
  timeout_height : ℕ

/-- Modelled from the spec: TxBuilder::build_body. The file tx_builder.rs
of this repository is not under src/; section 4.4 of the spec states that
body(messages, memo, timeout_height) is a pure constructor with no
network calls, a purely data-assembly stage. -/
def build_body (msgs : List AnyMsg) (memo : Option String) (timeout_height : ℕ) : TxBody :=
  { messages := msgs, memo := memo, timeout_height := timeout_height }

/-- The cosmos tx BroadcastMode enumeration (proto). The source sets the
integer tag of this enumeration into the request; the model keeps the
enumeration value itself. -/
inductive BroadcastMode : Type where
  | unspecified : BroadcastMode
  | block : BroadcastMode
  | sync : BroadcastMode
  | async : BroadcastMode

/-- The BroadcastTxRequest sent to the node service client
(sender.rs lines 370 to 373). -/
structure BroadcastTxRequest where
  tx_bytes : List ℕ
  mode : BroadcastMode

/-- The abci TxResponse returned by the broadcast endpoint; only the
fields the pipeline reads are kept. -/
structure AbciTxResponse where
  txhash : String
  code : ℕ
  raw_log : String

/-- The parsed post-inclusion transaction response (tx_resp.rs
CosmTxResponse); only the fields the modelled claims read are kept. -/
structure CosmTxResponse where
  txhash : String
  height : ℕ
  code : ℕ
  raw_log : String

/-- The node side of every network round trip the modelled pipeline
performs, supplied as data: the current block height, the broadcast
endpoint response as a function of the request, and the response of the
find_tx polling as a function of the transaction hash. -/
structure NodeOracle where
  block_height : ℕ
  broadcast_response : BroadcastTxRequest → AbciTxResponse
  find_tx_response : String → CosmTxResponse

/-- broadcast_tx (sender.rs lines 364 to 378): posts the signed bytes
with mode BroadcastMode::Sync and returns the response of the node. -/
def broadcast_tx (node : NodeOracle) (tx_bytes : List ℕ) : AbciTxResponse :=
  node.broadcast_response { tx_bytes := tx_bytes, mode := BroadcastMode.sync }

/-- Modelled from the spec: TxBroadcaster::broadcast. The file
tx_broadcaster.rs of this repository is not under src/; per section 4.5
of the spec the broadcaster signs the built body it is given, submits it
through the broadcast endpoint of the sender and resolves to a final
transaction hash, simulating the body it receives (the wrapped form).
The retry strategies are elided, modelling a node that accepts the first
attempt; signing and serialization are abstracted by the encode
argument. -/
def tx_broadcaster_broadcast (node : NodeOracle) (encode : TxBody → List ℕ)
    (body : TxBody) : AbciTxResponse :=
  broadcast_tx node (encode body)

/-- Modelled from the spec: the message set over which the broadcaster
runs gas simulation for a tx body, namely the messages of the body it
received (tx_broadcaster.rs and tx_builder.rs are not under src/; section
4.5 of the spec mandates simulating the wrapped form, and section 4.4
makes the builder operate on the body as assembled). -/
def broadcaster_simulated_msgs (body : TxBody) : List AnyMsg :=
  body.messages

/-- Modelled from the spec: assert_broadcast_code_cosm_response
(tx_broadcaster.rs is not under src/). Section 7 of the spec states that
a nonzero result code after inclusion is not a pipeline error and is
returned as a successful confirmation carrying the failure code and raw
log, so the response passes through unchanged. -/
def assert_broadcast_code_cosm_response (resp : CosmTxResponse) :
    Except DaemonError CosmTxResponse :=
  Except.ok resp

/-- The authz wrapping step of commit_tx_any (sender.rs lines 286 to
298): when an authz granter is configured the whole message list is
replaced by a single MsgExec envelope whose grantee is the derived
wallet address. -/
def wrap_authz_msgs (s : Sender) (msgs : List AnyMsg) : List AnyMsg :=
  if (s.options.authz_granter).isSome then
    [AnyMsg.exec "/cosmos.authz.v1beta1.MsgExec" s.pub_addr msgs]
  else msgs

/-- The transaction body commit_tx_any builds (sender.rs lines 284 to
300): the possibly authz-wrapped messages with a timeout height of the
current block height plus 10. -/
def commit_tx_body (s : Sender) (block_height : ℕ) (msgs : List AnyMsg)
    (memo : Option String) : TxBody :=
  build_body (wrap_authz_msgs s msgs) memo (block_height + 10)

/-- commit_tx_any (sender.rs lines 279 to 319): build the wrapped body,
broadcast it through the TxBroadcaster, poll find_tx for the returned
hash and classify the found response. -/
def commit_tx_any (node : NodeOracle) (encode : TxBody → List ℕ) (s : Sender)
    (msgs : List AnyMsg) (memo : Option String) : Except DaemonError CosmTxResponse :=
  let tx_body := commit_tx_body s node.block_height msgs memo
  let tx_response := tx_broadcaster_broadcast node encode tx_body
  let resp := node.find_tx_response tx_response.txhash
  assert_broadcast_code_cosm_response resp

/-- The transaction body the simulate method builds (sender.rs lines 246
to 248): the given messages, unwrapped, with a timeout height of the
current block height plus 10. -/
def simulate_tx_body (block_height : ℕ) (msgs : List AnyMsg)
    (memo : Option String) : TxBody :=
  build_body msgs memo (block_height + 10)

/-- The lowercase-then-contains test of assert_wallet_balance
(sender.rs line 437): the stdin line, lowercased, contains the
character y. -/
def to_lower_contains_y (input : String) : Bool :=
  input.data.any fun c => c.toLower = 'y'

/-- assert_wallet_balance (sender.rs lines 390 to 446). The successive
balance query results and stdin lines are supplied as functions of the
attempt index; the recursion of the source is bounded by explicit fuel,
with none modelling an unbounded prompt loop. Branch order follows the
source: return ok when the balance covers the fee; otherwise, when
disable_manual_interaction is false, return the NotEnoughBalance error at
once (after printing the message "No Manual Interactions, defaulting to
no"); otherwise read a stdin line and retry when it contains y, else
return the NotEnoughBalance error. -/
def assert_wallet_balance (env : EnvVars) (fee : Coin) (balance_at : ℕ → ℕ)
    (stdin_at : ℕ → String) : ℕ → ℕ → Option (Except DaemonError Unit)
  | _, 0 => none
  | attempt, fuel + 1 =>
    let parsed_balance : Coin := { amount := balance_at attempt, denom := fee.denom }
    if fee.amount ≤ parsed_balance.amount then
      some (Except.ok ())
    else if env.disable_manual_interaction = false then
      some (Except.error (DaemonError.notEnoughBalance fee parsed_balance))
    else if to_lower_contains_y (stdin_at attempt) then
      assert_wallet_balance env fee balance_at stdin_at (attempt + 1) fuel
    else
      some (Except.error (DaemonError.notEnoughBalance fee parsed_balance))

/-- The MsgSend bank message; amounts are modelled directly as coins
(the parse_cw_coins conversion is the identity on this model). -/
structure MsgSend where
  from_address : String
  to_address : String
  amount : List Coin

/-- The message bank_send builds (sender.rs lines 162 to 174): the from
address is message_sender. -/
def bank_send_msg (s : Sender) (recipient : String) (coins : List Coin) : MsgSend :=
  { from_address := message_sender s, to_address := recipient, amount := coins }

/-- The MsgExecuteContract message; the serialized execute payload is
modelled as bytes. -/
structure MsgExecuteContract where
  sender : String
  contract : String
  msg : List ℕ
  funds : List Coin

/-- The message the execute method of DaemonAsyncBase builds (core.rs
lines 124 to 144): the sender field is the message sender of the
wallet. -/
def execute_msg (s : Sender) (contract_address : String) (exec_payload : List ℕ)
    (coins : List Coin) : MsgExecuteContract :=
  { sender := message_sender s, contract := contract_address,
    msg := exec_payload, funds := coins }

/-- The MsgInstantiateContract message. -/
structure MsgInstantiateContract where
  code_id : ℕ
  label : Option String
  admin : Option String
  sender : String
  msg : List ℕ
  funds : List Coin

/-- The message the instantiate method of DaemonAsyncBase builds (core.rs
lines 147 to 174): the sender field is the message sender of the wallet
and a missing label defaults to instantiate_contract. -/
def instantiate_msg (s : Sender) (code_id : ℕ) (init_payload : List ℕ)
    (label : Option String) (admin : Option String) (coins : List Coin) :
    MsgInstantiateContract :=
  { code_id := code_id, label := some (label.getD "instantiate_contract"),
    admin := admin, sender := message_sender s, msg := init_payload,
    funds := coins }

/-- The MsgMigrateContract message. -/
structure MsgMigrateContract where
  sender : String
  contract : String
  msg : List ℕ
  code_id : ℕ

/-- The message the migrate method of DaemonAsyncBase builds (core.rs
lines 233 to 251): the sender field is the message sender of the
wallet. -/
def migrate_msg (s : Sender) (contract_address : String) (migrate_payload : List ℕ)
    (new_code_id : ℕ) : MsgMigrateContract :=
  { sender := message_sender s, contract := contract_address,
    msg := migrate_payload, code_id := new_code_id }

/-- The MsgStoreCode message; the gzip-compressed wasm is modelled as
bytes and the access config type is abstracted. -/
structure MsgStoreCode where
  sender : String
  wasm_byte_code : List ℕ
  instantiate_permission : Option Unit

/-- The message the upload method of DaemonAsyncBase builds (core.rs
lines 303 to 337): the sender field is the message sender of the wallet
and no instantiate permission is set. -/
def store_code_msg (s : Sender) (wasm_bytes : List ℕ) : MsgStoreCode :=
  { sender := message_sender s, wasm_byte_code := wasm_bytes,
    instantiate_permission := none }

/-! Concrete instances used to evaluate the definitions. -/

/-- A sample fee token. -/
def sampleFeeToken : FeeToken :=
  { denom := "ujunox", fixed_min_gas_price := 1/4, average_gas_price := 3/4 }

/-- A sample chain configuration with one fee token. -/
def sampleChainData : ChainData :=
  { chain_id := "juno-1", fees := { fee_tokens := [sampleFeeToken] } }

/-- A chain configuration whose fee-token list is empty. -/
def emptyFeeChainData : ChainData :=
  { chain_id := "juno-1", fees := { fee_tokens := [] } }

/-- A sample wallet without an authz granter. -/
def sampleSender : Sender :=
  { pub_addr := "juno1wallet", chain_data := sampleChainData,
    options := { authz_granter := none } }

/-- A sample wallet with an authz granter configured. -/
def granterSender : Sender :=
  { pub_addr := "juno1wallet", chain_data := sampleChainData,
    options := { authz_granter := some "juno1granter" } }

/-- A sample wallet on a chain with an empty fee-token list. -/
def emptyFeeSender : Sender :=
  { pub_addr := "juno1wallet", chain_data := emptyFeeChainData,
    options := { authz_granter := none } }

/-- The default environment: no overrides, balance assertion on, manual
interaction not disabled. -/
def defaultEnv : EnvVars :=
  { gas_buffer := none, min_gas := none,
    disable_wallet_balance_assertion := false,
    disable_manual_interaction := false }

/-- The default environment with an explicit minimum-gas override. -/
def minGasEnv : EnvVars := { defaultEnv with min_gas := some 999999 }

/-- The default environment with manual interaction disabled. -/
def manualDisabledEnv : EnvVars := { defaultEnv with disable_manual_interaction := true }

/-- A sample node: the broadcast endpoint accepts with hash HASH and the
find_tx poll reports inclusion at height 42 with the nonzero result code
11. -/
def sampleNode : NodeOracle :=
  { block_height := 64,
    broadcast_response := fun _ => { txhash := "HASH", code := 0, raw_log := "" },
    find_tx_response := fun h =>
      { txhash := h, height := 42, code := 11, raw_log := "out of gas" } }

/-- A sample signing and serialization function. -/
def sampleEncode : TxBody → List ℕ := fun _ => []

/-- A sample fee for the balance assertion. -/
def c3_fee : Coin := { amount := 100, denom := "ujunox" }

/-- Scripted balance query results: 40 on the first check, 150 after a
top-up. -/
def c3_balance_at : ℕ → ℕ := fun attempt => if attempt = 0 then 40 else 150

/-- Scripted stdin lines: the operator always confirms with y. -/
def c3_stdin_at : ℕ → String := fun _ => "y"

/-! Theorems. -/

/-- Claim C1 as stated is false on the code: at raw gas estimate 4 (below
the threshold, no environment overrides) the final gas the code returns
is 5, the truncation of 5.6, while round(4 times 1.4) = round(5.6) = 6. -/
theorem round_claim_fails_at_gas_four :
    (get_fee_from_gas sampleSender defaultEnv 4).map Prod.fst = some 5
    ∧ round ((4 : ℚ) * (14/10)) = (6 : ℤ)
    ∧ (5 : ℕ) ≠ 6 := by
  refine ⟨?_, ?_, by decide⟩
  · show (get_fee_from_gas sampleSender defaultEnv 4).map Prod.fst = some 5
    have h1 : gas_expected_q defaultEnv 4 = 28/5 := by
      norm_num [gas_expected_q, defaultEnv, BUFFER_THRESHOLD, SMALL_GAS_BUFFER]
    simp only [get_fee_from_gas, sampleSender, sampleChainData, List.head?, h1]
    norm_num [Nat.floor_eq_iff]
  · rw [round_eq]
    norm_num [Int.floor_eq_iff]

/-- Claim C1 (amended): with no environment gas-buffer override, the
final gas is the truncation (not the rounding) of g times 1.4 below the
200000 threshold and of g times 1.3 at or above it; and when an explicit
minimum-gas override is configured, the final gas is that override
whenever it is at least the computed buffered value. -/
theorem gas_buffer_threshold_truncation (s : Sender) (ft : FeeToken)
    (hft : s.chain_data.fees.fee_tokens.head? = some ft)
    (env : EnvVars) (hgb : env.gas_buffer = none) (gas : ℕ) :
    (env.min_gas = none →
      (get_fee_from_gas s env gas).map Prod.fst =
        some (if gas < 200000 then ⌊(gas : ℚ) * (14/10)⌋₊ else ⌊(gas : ℚ) * (13/10)⌋₊))
    ∧ (∀ m : ℕ, env.min_gas = some m →
        gas_expected_q { env with min_gas := none } gas ≤ (m : ℚ) →
        (get_fee_from_gas s env gas).map Prod.fst = some m) := by
  obtain ⟨gb, mg, dw, dm⟩ := env
  simp only [EnvVars.gas_buffer] at hgb
  subst hgb
  constructor
  · intro hmg
    simp only [EnvVars.min_gas] at hmg
    subst hmg
    by_cases hlt : gas < 200000 <;>
      simp [get_fee_from_gas, hft, gas_expected_q, BUFFER_THRESHOLD,
        SMALL_GAS_BUFFER, GAS_BUFFER, hlt]
  · intro m hmg hle
    simp only [EnvVars.min_gas] at hmg
    subst hmg
    simp only [gas_expected_q] at hle
    have hmax : gas_expected_q ⟨none, some m, dw, dm⟩ gas = (m : ℚ) := by
      simp only [gas_expected_q]
      exact max_eq_left hle
    simp [get_fee_from_gas, hft, hmax]

/-- Witness for the amended claim C1 at raw gas 7: below the threshold
the final gas is the truncation of 7 times 1.4, and with a minimum-gas
override of 999999 the override wins. -/
theorem gas_buffer_threshold_truncation_witness :
    sampleSender.chain_data.fees.fee_tokens.head? = some sampleFeeToken
    ∧ defaultEnv.gas_buffer = none
    ∧ (get_fee_from_gas sampleSender defaultEnv 7).map Prod.fst =
        some (if 7 < 200000 then ⌊(7 : ℚ) * (14/10)⌋₊ else ⌊(7 : ℚ) * (13/10)⌋₊)
    ∧ (get_fee_from_gas sampleSender minGasEnv 7).map Prod.fst = some 999999 :=
  ⟨rfl, rfl,
    (gas_buffer_threshold_truncation sampleSender sampleFeeToken rfl defaultEnv rfl 7).1 rfl,
    (gas_buffer_threshold_truncation sampleSender sampleFeeToken rfl minGasEnv rfl 7).2
      999999 rfl
      (by norm_num [gas_expected_q, minGasEnv, defaultEnv, BUFFER_THRESHOLD,
        SMALL_GAS_BUFFER])⟩

/-- Claim C2: broadcast_tx posts the signed bytes with BroadcastMode.sync,
which returns once the transaction reaches the mempool; this is never the
block-until-committed mode; and commit_tx_any obtains its confirmation
separately, from the find_tx poll on the broadcast hash. -/
theorem broadcast_sync_mode_confirmation_by_polling :
    (∀ (node : NodeOracle) (tx_bytes : List ℕ),
      broadcast_tx node tx_bytes =
        node.broadcast_response { tx_bytes := tx_bytes, mode := BroadcastMode.sync })
    ∧ BroadcastMode.sync ≠ BroadcastMode.block
    ∧ (∀ (node : NodeOracle) (encode : TxBody → List ℕ) (s : Sender)
        (msgs : List AnyMsg) (memo : Option String),
        commit_tx_any node encode s msgs memo =
          assert_broadcast_code_cosm_response
            (node.find_tx_response
              (tx_broadcaster_broadcast node encode
                (commit_tx_body s node.block_height msgs memo)).txhash)) :=
  ⟨fun _ _ => rfl, fun h => BroadcastMode.noConfusion h, fun _ _ _ _ _ => rfl⟩

/-- Claim C6: both the body built by the simulate method and the body
built by commit_tx_any carry a timeout height of the current block height
plus the fixed lookahead of 10 blocks. -/
theorem timeout_height_is_block_height_plus_ten :
    (∀ (bh : ℕ) (msgs : List AnyMsg) (memo : Option String),
      (simulate_tx_body bh msgs memo).timeout_height = bh + 10)
    ∧ (∀ (s : Sender) (bh : ℕ) (msgs : List AnyMsg) (memo : Option String),
      (commit_tx_body s bh msgs memo).timeout_height = bh + 10) :=
  ⟨fun _ _ _ => rfl, fun _ _ _ _ => rfl⟩

/-- Claim C4: with an authz granter configured, commit_tx_any replaces the
built message set by a single MsgExec envelope whose grantee is the
derived wallet address, and the message set the broadcaster simulates for
the committed body is that single envelope, not the inner list. -/
theorem authz_wrapping_single_envelope (s : Sender) (g : String)
    (hg : s.options.authz_granter = some g) (msgs : List AnyMsg) :
    wrap_authz_msgs s msgs =
      [AnyMsg.exec "/cosmos.authz.v1beta1.MsgExec" s.pub_addr msgs]
    ∧ (∀ (bh : ℕ) (memo : Option String),
        broadcaster_simulated_msgs (commit_tx_body s bh msgs memo) =
          [AnyMsg.exec "/cosmos.authz.v1beta1.MsgExec" s.pub_addr msgs])
    ∧ (∀ (u : String) (b : List ℕ), msgs = [AnyMsg.rawMsg u b] →
        ∀ (bh : ℕ) (memo : Option String),
          broadcaster_simulated_msgs (commit_tx_body s bh msgs memo) ≠ msgs) := by
  have hw : wrap_authz_msgs s msgs =
      [AnyMsg.exec "/cosmos.authz.v1beta1.MsgExec" s.pub_addr msgs] := by
    simp [wrap_authz_msgs, hg]
  refine ⟨hw, fun _ _ => by
    simp [broadcaster_simulated_msgs, commit_tx_body, build_body, hw], ?_⟩
  intro u b hmsgs bh memo
  subst hmsgs
  simp [broadcaster_simulated_msgs, commit_tx_body, build_body, hw]

/-- Witness for claim C4: with the sample granter wallet and one bank
message, the committed and simulated message set is the single MsgExec
envelope with the wallet address as grantee, and differs from the inner
message list. -/
theorem authz_wrapping_single_envelope_witness :
    granterSender.options.authz_granter = some "juno1granter"
    ∧ wrap_authz_msgs granterSender [AnyMsg.rawMsg "/cosmos.bank.v1beta1.MsgSend" []] =
        [AnyMsg.exec "/cosmos.authz.v1beta1.MsgExec" granterSender.pub_addr
          [AnyMsg.rawMsg "/cosmos.bank.v1beta1.MsgSend" []]]
    ∧ broadcaster_simulated_msgs
        (commit_tx_body granterSender 64
          [AnyMsg.rawMsg "/cosmos.bank.v1beta1.MsgSend" []] none) =
        [AnyMsg.exec "/cosmos.authz.v1beta1.MsgExec" granterSender.pub_addr
          [AnyMsg.rawMsg "/cosmos.bank.v1beta1.MsgSend" []]]
    ∧ broadcaster_simulated_msgs
        (commit_tx_body granterSender 64
          [AnyMsg.rawMsg "/cosmos.bank.v1beta1.MsgSend" []] none) ≠
        [AnyMsg.rawMsg "/cosmos.bank.v1beta1.MsgSend" []] :=
  ⟨rfl,
   (authz_wrapping_single_envelope granterSender "juno1granter" rfl _).1,
   (authz_wrapping_single_envelope granterSender "juno1granter" rfl _).2.1 64 none,
   (authz_wrapping_single_envelope granterSender "juno1granter" rfl _).2.2
     "/cosmos.bank.v1beta1.MsgSend" [] rfl 64 none⟩

/-- Claim C7: when the transaction found after broadcasting carries a
nonzero on-chain result code, commit_tx_any still resolves to a
successful confirmation, the found response itself, carrying that code
and its raw log. -/
theorem nonzero_code_returned_as_success (node : NodeOracle)
    (encode : TxBody → List ℕ) (s : Sender) (msgs : List AnyMsg)
    (memo : Option String)
    (hcode : (node.find_tx_response
        (tx_broadcaster_broadcast node encode
          (commit_tx_body s node.block_height msgs memo)).txhash).code ≠ 0) :
    commit_tx_any node encode s msgs memo =
      Except.ok (node.find_tx_response
        (tx_broadcaster_broadcast node encode
          (commit_tx_body s node.block_height msgs memo)).txhash)
    ∧ (node.find_tx_response
        (tx_broadcaster_broadcast node encode
          (commit_tx_body s node.block_height msgs memo)).txhash).code ≠ 0 :=
  ⟨rfl, hcode⟩

/-- Witness for claim C7: on the sample node, whose find_tx poll reports
code 11, commit_tx_any returns the found response as a success. -/
theorem nonzero_code_returned_as_success_witness :
    commit_tx_any sampleNode sampleEncode sampleSender [] none =
      Except.ok (sampleNode.find_tx_response
        (tx_broadcaster_broadcast sampleNode sampleEncode
          (commit_tx_body sampleSender sampleNode.block_height [] none)).txhash)
    ∧ (sampleNode.find_tx_response
        (tx_broadcaster_broadcast sampleNode sampleEncode
          (commit_tx_body sampleSender sampleNode.block_height [] none)).txhash).code ≠ 0 :=
  nonzero_code_returned_as_success sampleNode sampleEncode sampleSender [] none
    (by simp [sampleNode, tx_broadcaster_broadcast, broadcast_tx])

/-- Claim C5: for any buffered gas value, the fee amount the code
computes is exactly the buffered gas times the sum of the larger of the
fixed minimum gas price and the average gas price of the first configured
fee token and the 0.00001 epsilon, truncated by the final u128 cast, and
the fee denom is the denom of that same first fee token. -/
theorem fee_equals_buffered_gas_times_price (s : Sender) (ft : FeeToken)
    (hft : s.chain_data.fees.fee_tokens.head? = some ft)
    (env : EnvVars) (gas : ℕ) :
    get_fee_from_gas s env gas =
      some (⌊gas_expected_q env gas⌋₊,
        ⌊gas_expected_q env gas *
          (max ft.fixed_min_gas_price ft.average_gas_price + 1/100000)⌋₊)
    ∧ get_fee_token s = some ft.denom := by
  constructor
  · simp [get_fee_from_gas, hft, fee_amount_q]
  · simp [get_fee_token, hft]

/-- Witness for claim C5 at raw gas 150000 on the sample chain. -/
theorem fee_equals_buffered_gas_times_price_witness :
    get_fee_from_gas sampleSender defaultEnv 150000 =
      some (⌊gas_expected_q defaultEnv 150000⌋₊,
        ⌊gas_expected_q defaultEnv 150000 *
          (max sampleFeeToken.fixed_min_gas_price sampleFeeToken.average_gas_price
            + 1/100000)⌋₊)
    ∧ get_fee_token sampleSender = some sampleFeeToken.denom :=
  fee_equals_buffered_gas_times_price sampleSender sampleFeeToken rfl defaultEnv 150000

/-- Claim C9: with an authz granter configured, the sender address placed
in every built application message (bank send, execute, instantiate,
migrate, upload) is the granter address; without a granter it is the
derived wallet address. -/
theorem application_message_sender_is_granter (s : Sender) :
    (∀ g : String, s.options.authz_granter = some g →
      message_sender s = g
      ∧ (∀ r coins, (bank_send_msg s r coins).from_address = g)
      ∧ (∀ c p f, (execute_msg s c p f).sender = g)
      ∧ (∀ cid p lb ad f, (instantiate_msg s cid p lb ad f).sender = g)
      ∧ (∀ c p cid, (migrate_msg s c p cid).sender = g)
      ∧ (∀ w, (store_code_msg s w).sender = g))
    ∧ (s.options.authz_granter = none →
      message_sender s = s.pub_addr
      ∧ (∀ r coins, (bank_send_msg s r coins).from_address = s.pub_addr)
      ∧ (∀ c p f, (execute_msg s c p f).sender = s.pub_addr)
      ∧ (∀ cid p lb ad f, (instantiate_msg s cid p lb ad f).sender = s.pub_addr)
      ∧ (∀ c p cid, (migrate_msg s c p cid).sender = s.pub_addr)
      ∧ (∀ w, (store_code_msg s w).sender = s.pub_addr)) := by
  constructor
  · intro g hg
    have hms : message_sender s = g := by simp [message_sender, hg]
    exact ⟨hms, fun _ _ => hms, fun _ _ _ => hms, fun _ _ _ _ _ => hms,
      fun _ _ _ => hms, fun _ => hms⟩
  · intro hg
    have hms : message_sender s = s.pub_addr := by simp [message_sender, hg]
    exact ⟨hms, fun _ _ => hms, fun _ _ _ => hms, fun _ _ _ _ _ => hms,
      fun _ _ _ => hms, fun _ => hms⟩

/-- Witness for claim C9 on the sample wallets: with the granter
configured the message sender is the granter address, without it the
derived wallet address. -/
theorem application_message_sender_is_granter_witness :
    (message_sender granterSender = "juno1granter"
      ∧ (∀ r coins, (bank_send_msg granterSender r coins).from_address = "juno1granter")
      ∧ (∀ c p f, (execute_msg granterSender c p f).sender = "juno1granter")
      ∧ (∀ cid p lb ad f,
          (instantiate_msg granterSender cid p lb ad f).sender = "juno1granter")
      ∧ (∀ c p cid, (migrate_msg granterSender c p cid).sender = "juno1granter")
      ∧ (∀ w, (store_code_msg granterSender w).sender = "juno1granter"))
    ∧ (message_sender sampleSender = sampleSender.pub_addr
      ∧ (∀ r coins, (bank_send_msg sampleSender r coins).from_address = sampleSender.pub_addr)
      ∧ (∀ c p f, (execute_msg sampleSender c p f).sender = sampleSender.pub_addr)
      ∧ (∀ cid p lb ad f,
          (instantiate_msg sampleSender cid p lb ad f).sender = sampleSender.pub_addr)
      ∧ (∀ c p cid, (migrate_msg sampleSender c p cid).sender = sampleSender.pub_addr)
      ∧ (∀ w, (store_code_msg sampleSender w).sender = sampleSender.pub_addr)) :=
  ⟨(application_message_sender_is_granter granterSender).1 "juno1granter" rfl,
   (application_message_sender_is_granter sampleSender).2 rfl⟩

/-- Claim C10: on a chain configuration with an empty fee-token list,
get_fee_token and get_fee_from_gas reach the panic of the unconditional
fee_tokens[0] indexing (the none of the model) for every environment and
gas value; no DaemonError value is produced. -/
theorem empty_fee_token_list_panics (s : Sender)
    (hempty : s.chain_data.fees.fee_tokens = []) :
    get_fee_token s = none
    ∧ (∀ (env : EnvVars) (gas : ℕ), get_fee_from_gas s env gas = none) := by
  constructor
  · simp [get_fee_token, hempty]
  · intro env gas
    simp [get_fee_from_gas, hempty]

/-- Witness for claim C10 on the sample wallet whose chain has no fee
tokens. -/
theorem empty_fee_token_list_panics_witness :
    get_fee_token emptyFeeSender = none
    ∧ (∀ (env : EnvVars) (gas : ℕ), get_fee_from_gas emptyFeeSender env gas = none) :=
  empty_fee_token_list_panics emptyFeeSender rfl

/-- Claim C3 is inverted in the code. With manual interaction enabled
(disable_manual_interaction false, the default) and a balance of 40
below the fee of 100, assert_wallet_balance returns the NotEnoughBalance
error immediately, without consulting the operator, even though the
scripted operator would confirm and the next balance check would succeed;
with manual interaction disabled (disable_manual_interaction true) it
instead blocks on the stdin prompt, reads the confirmation and retries to
success. The spec and the message the error branch itself prints (No
Manual Interactions, defaulting to no) describe exactly the opposite
pairing, so the branch condition of sender.rs line 427 negates the
intended test. -/
theorem manual_interaction_branch_inverted :
    assert_wallet_balance defaultEnv c3_fee c3_balance_at c3_stdin_at 0 5
      = some (Except.error (DaemonError.notEnoughBalance c3_fee
          { amount := 40, denom := "ujunox" }))
    ∧ assert_wallet_balance manualDisabledEnv c3_fee c3_balance_at c3_stdin_at 0 5
      = some (Except.ok ()) := by
  constructor
  · rfl
  · rfl
